import Mathlib

/-!
Verification of `3rd-party-impact.js` from google/mweb-analysis-tools.

The program is a linear pipeline: read a URL from `argv`, run a Lighthouse
audit restricted to the `third-party-summary` category, map each audited
item to a 6-column row, then (after OAuth authorization) copy a template
spreadsheet and write the rows into the copy.

The embedding below models JavaScript strings as `List Char`, JavaScript
numbers as `ℚ` (the audit values are finite decimals), and the observable
behaviour of the pipeline as the list of I/O events it performs, with the
outcomes of the external collaborators (file system, OAuth provider,
Drive/Sheets backends) supplied by an `Env` record.  `Option`/branching
mirrors the callback error-checks of the source; a thrown JavaScript
exception is modelled as a terminal `crash` event.
-/

/-- JavaScript string, modelled as a list of characters. -/
abbrev JSStr := List Char

/-- Check that `sub` occurs at the head of `s` (helper for `jsIndexOf`). -/
def jsStartsWith : JSStr → JSStr → Bool
  | _, [] => true
  | [], _ :: _ => false
  | c :: s, d :: t => c = d && jsStartsWith s t

/-- Scan of `String.prototype.indexOf`: first position `≥ i` where `sub`
occurs in the remaining string, `-1` if none. -/
def jsIndexOfFrom (sub : JSStr) : JSStr → Int → Int
  | [], i => if jsStartsWith [] sub then i else -1
  | c :: rest, i =>
      if jsStartsWith (c :: rest) sub then i else jsIndexOfFrom sub rest (i + 1)

/-- Model of `s.indexOf(sub)`: index of the first occurrence of `sub` in
`s`, or `-1` when `sub` does not occur. -/
def jsIndexOf (s sub : JSStr) : Int := jsIndexOfFrom sub s 0

/-- Model of `s.toLowerCase()` (ASCII letters, which is all the program
compares against). -/
def jsToLower (s : JSStr) : JSStr := s.map Char.toLower

/-- Model of JavaScript `parseInt` applied to a (finite, non-exponential)
number: the number is truncated toward zero. -/
def jsParseIntNum (q : ℚ) : ℤ := q.num.tdiv q.den

/-- Source lines 121-130: map a third-party tag name to a coarse type. -/
def mapTagNameToType (tagName : JSStr) : String :=
  if jsIndexOf (jsToLower tagName) (" ads".toList) > 0 then "Ads"
  else if jsIndexOf (jsToLower tagName) ("analytics".toList) > 0 then "Analytics"
  else "other"

/-- One item of `lhResults.audits["third-party-summary"].details.items`. -/
structure LHItem where
  entityText : JSStr
  blockingTime : ℚ
  mainThreadTime : ℚ
  transferSize : ℚ
  deriving DecidableEq

/-- One element of the `result` array pushed at source line 83:
`[url, tagName, type, blockingTime, mainThreadTime, transferSize]`. -/
structure OutputRow where
  url : JSStr
  tagName : JSStr
  tagType : String
  blockingTime : ℤ
  mainThreadTime : ℤ
  transferSize : ℚ
  deriving DecidableEq

/-- Source lines 78-83: the body of the row-assembly loop for one item. -/
def rowOf (url : JSStr) (it : LHItem) : OutputRow :=
  { url := url
    tagName := it.entityText
    tagType := mapTagNameToType it.entityText
    blockingTime := jsParseIntNum it.blockingTime
    mainThreadTime := jsParseIntNum it.mainThreadTime
    transferSize := (jsParseIntNum it.transferSize : ℚ) / 1024 }

/-- Source lines 72-84: the `for(item in items)` loop over the audit items
(ascending index order for a JavaScript array), pushing one row per item. -/
def assembleRows (url : JSStr) (items : List LHItem) : List OutputRow :=
  items.map (rowOf url)

/-- Source line 36: file ID of the template spreadsheet. -/
def TEMPLATE_ID : String := "1fntMyGqNo6Ti-Jj6DPKcyAUcA2U4jSS6g_4DjH_Ozkw"

/-- The OAuth credential held in memory by the `oAuth2Client`. -/
inductive Cred
  /-- `setCredentials(JSON.parse(token))` with the cached `token.json` content
  (source line 199). -/
  | cachedTok (raw : JSStr)
  /-- `setCredentials(token)` with a token freshly exchanged for the
  operator's authorization code (source line 224). -/
  | freshTok (tok : JSStr)
  deriving DecidableEq

/-- Observable I/O events of one run, in program order. -/
inductive Event
  /-- An uncaught JavaScript exception terminates the run. -/
  | crash (reason : String)
  /-- Source line 48: the usage message. -/
  | logUsage
  /-- Source lines 52-53: the start-up log with the target URL. -/
  | logStart (url : JSStr)
  /-- Source line 107: "Opening Chrome to make Lighthouse run...". -/
  | logChromeOpen
  /-- Source line 108: `chromeLauncher.launch`. -/
  | launchChrome
  /-- Source line 110: the `lighthouse(url, opts, config)` audit call. -/
  | runLighthouse (url : JSStr)
  /-- Source line 111: `chrome.kill()`. -/
  | killChrome
  /-- Source line 74: `console.log(items)`. -/
  | logItems (items : List LHItem)
  /-- Source line 87: `fs.readFile('credentials.json', ...)`. -/
  | readCredentialsFile
  /-- Source line 88: "Error loading client secret file". -/
  | logCredentialsError
  /-- Source line 197: `fs.readFile(TOKEN_PATH, ...)`. -/
  | readTokenFile
  /-- Source line 215: log of the authorization URL. -/
  | logAuthUrl
  /-- Source line 220: `rl.question(...)`, blocking console read. -/
  | promptForCode
  /-- Source line 222: `oAuth2Client.getToken(code, ...)`. -/
  | exchangeCode (code : JSStr)
  /-- Source line 223: "Error while trying to retrieve access token". -/
  | logTokenExchangeError
  /-- Source line 226: `fs.writeFile(TOKEN_PATH, ...)`. -/
  | writeTokenFile (tok : JSStr)
  /-- Source line 227: `console.error(err)` on a failed token write. -/
  | logTokenWriteError
  /-- Source line 228: "Token stored to token.json". -/
  | logTokenStored
  /-- Source line 146: "Making a copy of the report TEMPLATE file....". -/
  | logCopyStart
  /-- Source line 147: `drive.files.copy({fileId: TEMPLATE_ID})`, issued with
  the credential `cred`. -/
  | copyFile (cred : Cred) (fileId : String)
  /-- Source line 150: "The API returned an error". -/
  | logCopyError
  /-- Source line 155: "Now writing results into new spreadsheet ...". -/
  | logWriting (spreadsheetId : JSStr)
  /-- Source line 177: `sheets.spreadsheets.values.update(...)`.  `values` is
  the `values` key of the request body; `none` models the JavaScript value
  `undefined`. -/
  | updateValues (cred : Cred) (spreadsheetId : JSStr) (updateRange : String)
      (valueInputOption : String) (values : Option (List OutputRow))
  /-- Source line 157: "%d cells updated.". -/
  | logCellsUpdated
  deriving DecidableEq

/-- Outcomes of the external collaborators consulted by one run. -/
structure Env where
  /-- Value of `process.argv[2]`; `none` models a missing argument. -/
  argv2 : Option JSStr
  /-- Items of the (successful) audit's `third-party-summary` section. -/
  items : List LHItem
  /-- Content of `credentials.json`; `none` models a read error. -/
  credRead : Option JSStr
  /-- Whether `JSON.parse` throws on the credentials content. -/
  credParseThrows : JSStr → Bool
  /-- Content of `token.json`; `none` models a read error. -/
  tokenRead : Option JSStr
  /-- Whether `JSON.parse` throws on the token content. -/
  tokenParseThrows : JSStr → Bool
  /-- The authorization code entered by the operator. -/
  authCode : JSStr
  /-- Result of `oAuth2Client.getToken`; `none` models an exchange error. -/
  exchange : Option JSStr
  /-- Whether `fs.writeFile(TOKEN_PATH, ...)` succeeds. -/
  tokenWriteOk : Bool
  /-- Result of `drive.files.copy`; `none` models an API error, `some id`
  the id of the new spreadsheet. -/
  copyResult : Option JSStr

/-- Source lines 106-114: launch Chrome, run the audit, kill Chrome.
The trace prefix produced by `launchChromeAndRunLighthouse` on a
successful audit. -/
def launchChromeAndRunLighthouse (url : JSStr) : List Event :=
  [Event.logChromeOpen, Event.launchChrome, Event.runLighthouse url,
   Event.killChrome]

/-- Source lines 173-179: issue the single `values.update` request. -/
def writeSheet (cred : Cred) (spreadsheetId : JSStr)
    (updateRange valueInputOption : String)
    (values : Option (List OutputRow)) : List Event :=
  [Event.updateValues cred spreadsheetId updateRange valueInputOption values]

/-- Source lines 141-161: copy the template, then write the rows into the
copy; on a copy error, log and stop.  `items` is the second argument of the
callback; `none` models the `undefined` passed when the caller omitted it. -/
def addResultsToSpeadsheet (env : Env) (cred : Cred)
    (items : Option (List OutputRow)) : List Event :=
  Event.logCopyStart :: Event.copyFile cred TEMPLATE_ID ::
  match env.copyResult with
  | none => [Event.logCopyError]
  | some newId =>
      Event.logWriting newId ::
      writeSheet cred newId "Actions!A2:F" "RAW" items ++
      [Event.logCellsUpdated]

/-- Source lines 210-233: interactive flow for a new token.  Note that the
source invokes `callback(oAuth2Client)` (line 230) with no second argument,
so the callback receives `undefined` (`none`) in place of the rows. -/
def getNewToken (env : Env)
    (callback : Cred → Option (List OutputRow) → List Event) : List Event :=
  Event.logAuthUrl :: Event.promptForCode :: Event.exchangeCode env.authCode ::
  match env.exchange with
  | none => [Event.logTokenExchangeError]
  | some tok =>
      Event.writeTokenFile tok ::
      (if env.tokenWriteOk then [Event.logTokenStored]
       else [Event.logTokenWriteError]) ++
      callback (Cred.freshTok tok) none

/-- Source lines 191-202: read the cached token; on a read error enter the
interactive flow, otherwise `JSON.parse` it (an uncaught exception if that
throws) and invoke the callback with the cached credential and the rows. -/
def authorize (env : Env)
    (callback : Cred → Option (List OutputRow) → List Event)
    (items : List OutputRow) : List Event :=
  Event.readTokenFile ::
  match env.tokenRead with
  | none => getNewToken env callback
  | some content =>
      if env.tokenParseThrows content then
        [Event.crash "SyntaxError: JSON.parse on token.json content"]
      else callback (Cred.cachedTok content) (some items)

/-- Source lines 46-94: the whole run.  `process.argv[2]` is checked first
(`url.indexOf` throws a `TypeError` when the argument is missing), then the
audit runs, the rows are assembled, `credentials.json` is read, and the
delivery stage is entered through `authorize`. -/
def run (env : Env) : List Event :=
  match env.argv2 with
  | none => [Event.crash "TypeError: url is undefined"]
  | some url =>
      if jsIndexOf url ("http".toList) ≠ 0 then [Event.logUsage]
      else
        Event.logStart url ::
        launchChromeAndRunLighthouse url ++
        Event.logItems env.items ::
        Event.readCredentialsFile ::
        match env.credRead with
        | none => [Event.logCredentialsError]
        | some content =>
            if env.credParseThrows content then
              [Event.crash "SyntaxError: JSON.parse on credentials.json content"]
            else
              authorize env (fun cred itemsOpt =>
                addResultsToSpeadsheet env cred itemsOpt)
                (assembleRows url env.items)

/-- Recognizer for the `values.update` event. -/
def isUpdateEvent : Event → Bool
  | Event.updateValues _ _ _ _ _ => true
  | _ => false

/-- Recognizer for the `drive.files.copy` event. -/
def isCopyEvent : Event → Bool
  | Event.copyFile _ _ => true
  | _ => false

/-- A convenient fully populated environment for concrete instantiations:
valid URL, one audited item, readable credentials, cached parseable token,
successful copy. -/
def sampleEnv : Env where
  argv2 := some ("https://example.com".toList)
  items := []
  credRead := some ("{}".toList)
  credParseThrows := fun _ => false
  tokenRead := some ("{}".toList)
  tokenParseThrows := fun _ => false
  authCode := "code123".toList
  exchange := some ("tok".toList)
  tokenWriteOk := true
  copyResult := some ("newSheetId".toList)

/-- Truncation toward zero coincides with the floor on nonnegative inputs. -/
theorem jsParseIntNum_eq_floor (q : ℚ) (h : 0 ≤ q) : jsParseIntNum q = ⌊q⌋ := by
  rw [jsParseIntNum, Rat.floor_def, Int.tdiv_eq_ediv (Rat.num_nonneg.2 h) (by positivity)]

/-- Truncation is the identity on integers. -/
theorem jsParseIntNum_intCast (n : ℤ) : jsParseIntNum (n : ℚ) = n := by
  simp [jsParseIntNum, Rat.num_intCast, Rat.den_intCast, Int.tdiv_one]

/-- C4: `mapTagNameToType` is deterministic and case-insensitive (it depends
only on the lower-cased name), returns exactly one of "Ads"/"Analytics"/
"other", classifies as "Ads" exactly when the lower-cased name has " ads" at
an index greater than 0 (taking priority over the "analytics" check), as
"Analytics" exactly when it does not and "analytics" occurs at an index
greater than 0, otherwise as "other"; and the three example names classify as
claimed. -/
theorem c4_mapTagNameToType_classification :
    (∀ s t : JSStr, jsToLower s = jsToLower t →
      mapTagNameToType s = mapTagNameToType t) ∧
    (∀ s : JSStr,
      (mapTagNameToType s = "Ads" ∨ mapTagNameToType s = "Analytics" ∨
        mapTagNameToType s = "other") ∧
      (mapTagNameToType s = "Ads" ↔
        jsIndexOf (jsToLower s) (" ads".toList) > 0) ∧
      (mapTagNameToType s = "Analytics" ↔
        (¬ jsIndexOf (jsToLower s) (" ads".toList) > 0 ∧
          jsIndexOf (jsToLower s) ("analytics".toList) > 0)) ∧
      (mapTagNameToType s = "other" ↔
        (¬ jsIndexOf (jsToLower s) (" ads".toList) > 0 ∧
          ¬ jsIndexOf (jsToLower s) ("analytics".toList) > 0))) ∧
    mapTagNameToType ("Example Ads Co".toList) = "Ads" ∧
    mapTagNameToType ("google-analytics.com".toList) = "Analytics" ∧
    mapTagNameToType ("cdn.example.com".toList) = "other" := by
  refine ⟨fun s t h => by simp only [mapTagNameToType, h],
    fun s => ?_, by decide, by decide, by decide⟩
  unfold mapTagNameToType
  by_cases h1 : jsIndexOf (jsToLower s) (" ads".toList) > 0
  · rw [if_pos h1]
    exact ⟨Or.inl rfl, iff_of_true rfl h1,
      iff_of_false (by decide) (fun h => h.1 h1),
      iff_of_false (by decide) (fun h => h.1 h1)⟩
  · rw [if_neg h1]
    by_cases h2 : jsIndexOf (jsToLower s) ("analytics".toList) > 0
    · rw [if_pos h2]
      exact ⟨Or.inr (Or.inl rfl), iff_of_false (by decide) h1,
        iff_of_true rfl ⟨h1, h2⟩,
        iff_of_false (by decide) (fun h => h.2 h2)⟩
    · rw [if_neg h2]
      exact ⟨Or.inr (Or.inr rfl), iff_of_false (by decide) h1,
        iff_of_false (by decide) (fun h => h2 h.2),
        iff_of_true rfl ⟨h1, h2⟩⟩

/-- Witness for C4: two casings of the same name classify identically. -/
theorem c4_witness :
    jsToLower ("GOOGLE-Analytics.COM".toList) =
      jsToLower ("google-analytics.com".toList) ∧
    mapTagNameToType ("GOOGLE-Analytics.COM".toList) =
      mapTagNameToType ("google-analytics.com".toList) :=
  ⟨by decide, c4_mapTagNameToType_classification.1 _ _ (by decide)⟩

/-- C5: a name whose lower-casing is exactly "ads" or exactly "analytics"
(so the matched substring would start at index 0) classifies as "other". -/
theorem c5_position_zero_not_recognized :
    ∀ s : JSStr,
      (jsToLower s = "ads".toList ∨ jsToLower s = "analytics".toList) →
      mapTagNameToType s = "other" := by
  intro s h
  rcases h with h | h <;> simp only [mapTagNameToType, h] <;> decide

/-- Witness for C5: both boundary names fall through to "other". -/
theorem c5_witness :
    mapTagNameToType ("ads".toList) = "other" ∧
    mapTagNameToType ("Analytics".toList) = "other" :=
  ⟨c5_position_zero_not_recognized _ (Or.inl (by decide)),
   c5_position_zero_not_recognized _ (Or.inr (by decide))⟩

/-- An audit item with empty entity name and the given three numeric fields,
used to instantiate the unit-conversion claims. -/
def itemWith (b m t : ℚ) : LHItem :=
  { entityText := [], blockingTime := b, mainThreadTime := m, transferSize := t }

/-- Counterexample to C6: for a byte value of 4097/2 the program first
truncates it with `parseInt` and only then divides by 1024, so the resulting
kilobyte value is 2, not the untruncated 4097/2048 the claim describes. -/
theorem c6_counterexample :
    (rowOf [] (itemWith 0 0 ((4097 : ℚ)/2))).transferSize ≠
      ((4097 : ℚ)/2) / 1024 := by
  have h : jsParseIntNum ((4097 : ℚ)/2) = 2048 := by
    norm_num [jsParseIntNum]
    decide
  simp only [rowOf, itemWith, h]
  norm_num

/-- C6 (amended): blocking time and main-thread time are truncated (floored,
for the nonnegative values the audit produces) to integer milliseconds; the
transfer size is the `parseInt`-truncated byte value divided by 1024, the
quotient itself left unrounded, which agrees with exact division by 1024
whenever the byte value is an integer; `blockingTime = 1234.9` yields `1234`
and `transferSize = 2048` yields `2`. -/
theorem c6_unit_conversions :
    (∀ (u : JSStr) (it : LHItem), 0 ≤ it.blockingTime →
      0 ≤ it.mainThreadTime → 0 ≤ it.transferSize →
      (rowOf u it).blockingTime = ⌊it.blockingTime⌋ ∧
      (rowOf u it).mainThreadTime = ⌊it.mainThreadTime⌋ ∧
      (rowOf u it).transferSize = (⌊it.transferSize⌋ : ℚ) / 1024 ∧
      (∀ n : ℤ, it.transferSize = (n : ℚ) →
        (rowOf u it).transferSize = it.transferSize / 1024)) ∧
    jsParseIntNum ((12349 : ℚ)/10) = 1234 ∧
    (rowOf [] (itemWith 0 0 2048)).transferSize = 2 := by
  refine ⟨fun u it hb hm ht => ?_, by norm_num [jsParseIntNum]; decide, ?_⟩
  · refine ⟨jsParseIntNum_eq_floor _ hb, jsParseIntNum_eq_floor _ hm,
      by rw [rowOf, jsParseIntNum_eq_floor _ ht], fun n hn => ?_⟩
    simp only [rowOf, hn, jsParseIntNum_intCast]
  · have h : jsParseIntNum (2048 : ℚ) = 2048 := by
      rw [show (2048 : ℚ) = ((2048 : ℤ) : ℚ) by norm_num, jsParseIntNum_intCast]
    simp only [rowOf, itemWith, h]
    norm_num

/-- Witness for C6 (amended): the conversion facts instantiated at an item
with integer values 2048/2048/2048. -/
theorem c6_witness :
    (rowOf [] (itemWith 2048 2048 2048)).blockingTime = ⌊(2048 : ℚ)⌋ ∧
    (rowOf [] (itemWith 2048 2048 2048)).transferSize =
      (⌊(2048 : ℚ)⌋ : ℚ) / 1024 :=
  ⟨(c6_unit_conversions.1 [] _ (by decide) (by decide) (by decide)).1,
   (c6_unit_conversions.1 [] _ (by decide) (by decide) (by decide)).2.2.1⟩

/-- C7: row assembly is total and order-preserving: the `i`-th output row is
exactly the translation of the `i`-th audit item (so there is no sorting,
deduplication or filtering), the number of rows equals the number of items,
and every row's first column is the input URL verbatim. -/
theorem c7_row_assembly_order :
    ∀ (u : JSStr) (items : List LHItem),
      (assembleRows u items).length = items.length ∧
      (∀ i : Nat, (assembleRows u items)[i]? = (items[i]?).map (rowOf u)) ∧
      (∀ r ∈ assembleRows u items, r.url = u) := by
  intro u items
  refine ⟨by simp [assembleRows], fun i => by simp [assembleRows], fun r hr => ?_⟩
  rcases List.mem_map.1 hr with ⟨it, _, rfl⟩
  rfl

/-- A concrete audit item used to instantiate the row-assembly claim. -/
def sampleItem : LHItem where
  entityText := "Example Ads".toList
  blockingTime := 150
  mainThreadTime := 300
  transferSize := 10240

/-- Witness for C7: the claim instantiated on a one-item audit result. -/
theorem c7_witness :
    (assembleRows ("https://example.com".toList) [sampleItem]).length =
      [sampleItem].length ∧
    (assembleRows ("https://example.com".toList) [sampleItem])[0]? =
      ([sampleItem][0]?).map (rowOf ("https://example.com".toList)) ∧
    (rowOf ("https://example.com".toList) sampleItem).url =
      "https://example.com".toList :=
  ⟨(c7_row_assembly_order _ [sampleItem]).1,
   (c7_row_assembly_order _ [sampleItem]).2.1 0,
   (c7_row_assembly_order _ [sampleItem]).2.2 _ (List.Mem.head _)⟩

/-- C3: a present URL argument that does not begin with "http" (the empty
string included) yields exactly the usage message and no further action; a
missing argument, however, crashes with a TypeError (the code calls
`indexOf` on the undefined argument) instead of printing usage - still with
no audit, browser or network action performed. -/
theorem c3_argument_check :
    (∀ (env : Env) (u : JSStr), env.argv2 = some u →
      jsIndexOf u ("http".toList) ≠ 0 → run env = [Event.logUsage]) ∧
    (∀ env : Env, env.argv2 = none →
      run env = [Event.crash "TypeError: url is undefined"]) := by
  constructor
  · intro env u h1 h2
    have h2l : ¬ jsIndexOf u (['h', 't', 't', 'p'] : JSStr) = 0 := h2
    simp [run, h1, h2l]
  · intro env h
    simp [run, h]

/-- Witness for C3: usage on the empty-string URL, crash on a missing one. -/
theorem c3_witness :
    run { sampleEnv with argv2 := some [] } = [Event.logUsage] ∧
    run { sampleEnv with argv2 := none } =
      [Event.crash "TypeError: url is undefined"] :=
  ⟨c3_argument_check.1 _ [] rfl (by decide), c3_argument_check.2 _ rfl⟩

/-- Counterexample to C2: with credentials.json unreadable, the browser
launch and the audit have already happened by the time the error is hit, so
the run does not abort before browser activity. -/
theorem c2_counterexample :
    ({ sampleEnv with credRead := none } : Env).credRead = none ∧
    Event.launchChrome ∈ run { sampleEnv with credRead := none } ∧
    Event.runLighthouse ("https://example.com".toList) ∈
      run { sampleEnv with credRead := none } ∧
    Event.logCredentialsError ∈ run { sampleEnv with credRead := none } := by
  decide

/-- C2 (amended): if credentials.json is missing or unreadable the run logs
the error and stops, performing no OAuth or spreadsheet activity - but only
after the browser launch and the audit have already been performed. -/
theorem c2_credentials_error_aborts (env : Env) (u : JSStr)
    (h1 : env.argv2 = some u) (h2 : jsIndexOf u ("http".toList) = 0)
    (h3 : env.credRead = none) :
    run env = [Event.logStart u, Event.logChromeOpen, Event.launchChrome,
      Event.runLighthouse u, Event.killChrome, Event.logItems env.items,
      Event.readCredentialsFile, Event.logCredentialsError] := by
  have h2l : jsIndexOf u (['h', 't', 't', 'p'] : JSStr) = 0 := h2
  simp [run, launchChromeAndRunLighthouse, h1, h2l, h3]

/-- Witness for C2 (amended): the trace with an unreadable credentials file. -/
theorem c2_witness :
    run { sampleEnv with credRead := none } =
      [Event.logStart ("https://example.com".toList), Event.logChromeOpen,
       Event.launchChrome, Event.runLighthouse ("https://example.com".toList),
       Event.killChrome, Event.logItems [], Event.readCredentialsFile,
       Event.logCredentialsError] :=
  c2_credentials_error_aborts _ _ rfl (by decide) rfl

/-- C10: when token.json is readable but its content is not valid JSON, the
run ends with the uncaught JSON.parse exception: the interactive flow is not
entered and no delivery (copy or update) is performed. -/
theorem c10_invalid_token_json_crashes (env : Env) (u c t : JSStr)
    (h1 : env.argv2 = some u) (h2 : jsIndexOf u ("http".toList) = 0)
    (h3 : env.credRead = some c) (h4 : env.credParseThrows c = false)
    (h5 : env.tokenRead = some t) (h6 : env.tokenParseThrows t = true) :
    run env = [Event.logStart u, Event.logChromeOpen, Event.launchChrome,
      Event.runLighthouse u, Event.killChrome, Event.logItems env.items,
      Event.readCredentialsFile, Event.readTokenFile,
      Event.crash "SyntaxError: JSON.parse on token.json content"] := by
  have h2l : jsIndexOf u (['h', 't', 't', 'p'] : JSStr) = 0 := h2
  simp [run, launchChromeAndRunLighthouse, authorize, h1, h2l, h3, h4, h5, h6]

/-- Witness for C10: the crash trace on an unparseable cached token. -/
theorem c10_witness :
    run { sampleEnv with tokenParseThrows := fun _ => true } =
      [Event.logStart ("https://example.com".toList), Event.logChromeOpen,
       Event.launchChrome, Event.runLighthouse ("https://example.com".toList),
       Event.killChrome, Event.logItems [], Event.readCredentialsFile,
       Event.readTokenFile,
       Event.crash "SyntaxError: JSON.parse on token.json content"] :=
  c10_invalid_token_json_crashes _ _ _ _ rfl (by decide) rfl rfl rfl rfl

/-- C9: a failed write of the freshly exchanged token to the token store is
logged only: the run does not crash, and delivery proceeds using the fresh
in-memory credential (the copy request is issued with it). -/
theorem c9_token_write_failure_nonfatal (env : Env) (u c tok : JSStr)
    (h1 : env.argv2 = some u) (h2 : jsIndexOf u ("http".toList) = 0)
    (h3 : env.credRead = some c) (h4 : env.credParseThrows c = false)
    (h5 : env.tokenRead = none) (h6 : env.exchange = some tok)
    (h7 : env.tokenWriteOk = false) :
    Event.logTokenWriteError ∈ run env ∧
    Event.copyFile (Cred.freshTok tok) TEMPLATE_ID ∈ run env ∧
    (∀ r : String, Event.crash r ∉ run env) := by
  have h2l : jsIndexOf u (['h', 't', 't', 'p'] : JSStr) = 0 := h2
  cases h8 : env.copyResult <;>
    simp [run, launchChromeAndRunLighthouse, authorize, getNewToken,
      addResultsToSpeadsheet, writeSheet, h1, h2l, h3, h4, h5, h6, h7, h8]

/-- Witness for C9: token-write failure still reaches the copy request with
the fresh credential. -/
theorem c9_witness :
    Event.logTokenWriteError ∈
      run { sampleEnv with tokenRead := none, tokenWriteOk := false } ∧
    Event.copyFile (Cred.freshTok ("tok".toList)) TEMPLATE_ID ∈
      run { sampleEnv with tokenRead := none, tokenWriteOk := false } :=
  ⟨(c9_token_write_failure_nonfatal _ _ _ _ rfl (by decide) rfl rfl rfl rfl
      rfl).1,
   (c9_token_write_failure_nonfatal _ _ _ _ rfl (by decide) rfl rfl rfl rfl
      rfl).2.1⟩

/-- C8: when the copy-file request fails, no values.update request occurs
anywhere in the run (so in particular nothing is ever written to the template
spreadsheet), and whenever the delivery stage was reached the backend error
is logged. -/
theorem c8_copy_failure_no_update (env : Env) (h : env.copyResult = none) :
    (∀ e ∈ run env, isUpdateEvent e = false) ∧
    (Event.logCopyStart ∈ run env → Event.logCopyError ∈ run env) := by
  have hAdd : ∀ cred io, addResultsToSpeadsheet env cred io =
      [Event.logCopyStart, Event.copyFile cred TEMPLATE_ID,
       Event.logCopyError] := by
    intro cred io
    simp [addResultsToSpeadsheet, h]
  rcases ha : env.argv2 with _ | u
  · simp [run, ha, isUpdateEvent]
  by_cases hu : jsIndexOf u (['h', 't', 't', 'p'] : JSStr) = 0
  case neg =>
    simp [run, ha, hu, isUpdateEvent]
  rcases hc : env.credRead with _ | c
  · simp [run, launchChromeAndRunLighthouse, ha, hu, hc, isUpdateEvent]
  by_cases hcp : env.credParseThrows c = true
  case pos =>
    simp [run, launchChromeAndRunLighthouse, ha, hu, hc, hcp, isUpdateEvent]
  rcases ht : env.tokenRead with _ | t
  · rcases he : env.exchange with _ | tok
    · simp [run, launchChromeAndRunLighthouse, authorize, getNewToken,
        ha, hu, hc, hcp, ht, he, isUpdateEvent]
    · cases hw : env.tokenWriteOk <;>
        simp [run, launchChromeAndRunLighthouse, authorize, getNewToken,
          ha, hu, hc, hcp, ht, he, hw, hAdd, isUpdateEvent]
  by_cases htp : env.tokenParseThrows t = true
  case pos =>
    simp [run, launchChromeAndRunLighthouse, authorize,
      ha, hu, hc, hcp, ht, htp, isUpdateEvent]
  simp [run, launchChromeAndRunLighthouse, authorize,
    ha, hu, hc, hcp, ht, htp, hAdd, isUpdateEvent]

/-- Witness for C8: a failed copy on the cached-token path logs the error
and produces no update request. -/
theorem c8_witness :
    (∀ e ∈ run { sampleEnv with copyResult := none },
      isUpdateEvent e = false) ∧
    (Event.logCopyStart ∈ run { sampleEnv with copyResult := none } →
      Event.logCopyError ∈ run { sampleEnv with copyResult := none }) :=
  c8_copy_failure_no_update { sampleEnv with copyResult := none } rfl

/-- C1 settled on both credential paths, with a successful copy: the run
issues exactly one values.update request, addressed to the newly copied
spreadsheet with the fixed range "Actions!A2:F" and value-input mode "RAW";
on the cached-token path it carries all assembled rows, but on the
interactive fresh-token path it carries `undefined` (`none`) instead of the
rows, because `getNewToken` (source line 230) invokes the delivery callback
without the rows argument. -/
theorem c1_update_request (env : Env) (u c tok newId : JSStr)
    (h1 : env.argv2 = some u) (h2 : jsIndexOf u ("http".toList) = 0)
    (h3 : env.credRead = some c) (h4 : env.credParseThrows c = false)
    (h7 : env.copyResult = some newId) :
    (env.tokenRead = none → env.exchange = some tok →
      (run env).filter isUpdateEvent =
        [Event.updateValues (Cred.freshTok tok) newId "Actions!A2:F" "RAW"
          none]) ∧
    (∀ t : JSStr, env.tokenRead = some t → env.tokenParseThrows t = false →
      (run env).filter isUpdateEvent =
        [Event.updateValues (Cred.cachedTok t) newId "Actions!A2:F" "RAW"
          (some (assembleRows u env.items))]) := by
  have h2l : jsIndexOf u (['h', 't', 't', 'p'] : JSStr) = 0 := h2
  constructor
  · intro h5 h6
    cases hw : env.tokenWriteOk <;>
      simp [run, launchChromeAndRunLighthouse, authorize, getNewToken,
        addResultsToSpeadsheet, writeSheet, h1, h2l, h3, h4, h5, h6, h7, hw,
        isUpdateEvent, List.filter]
  · intro t h5 h6
    simp [run, launchChromeAndRunLighthouse, authorize,
      addResultsToSpeadsheet, writeSheet, h1, h2l, h3, h4, h5, h6, h7,
      isUpdateEvent, List.filter]

/-- Witness for C1: on the fresh-token path the single update request
carries `undefined`; on the cached-token path it carries the rows. -/
theorem c1_witness :
    (run { sampleEnv with tokenRead := none }).filter isUpdateEvent =
      [Event.updateValues (Cred.freshTok ("tok".toList))
        ("newSheetId".toList) "Actions!A2:F" "RAW" none] ∧
    (run sampleEnv).filter isUpdateEvent =
      [Event.updateValues (Cred.cachedTok ("{}".toList))
        ("newSheetId".toList) "Actions!A2:F" "RAW"
        (some (assembleRows ("https://example.com".toList) []))] :=
  ⟨(c1_update_request { sampleEnv with tokenRead := none }
      ("https://example.com".toList) ("{}".toList) ("tok".toList)
      ("newSheetId".toList) rfl (by decide) rfl rfl rfl).1 rfl rfl,
   (c1_update_request sampleEnv ("https://example.com".toList)
      ("{}".toList) ("tok".toList) ("newSheetId".toList) rfl (by decide)
      rfl rfl rfl).2 ("{}".toList) rfl rfl⟩
